import Mathlib

/-!
Verification development for the StyleTTS2 fine-tuning orchestrator
(`train_finetune.py`).  The definitions below are a shallow embedding of the
data model and operations of the training script: model registry keys,
per-unit gradient state and the SLM adversarial gradient surgery, the
curriculum gating of the diffusion/style losses, the per-batch effect trace
(optimizer steps, backwards, skips), checkpoint save/restore, the startup
curriculum offsets, the epoch-end metric emission, the per-unit optimizer
hyperparameter overrides, and the random-crop segment sampling bounds.
-/

namespace StyleTTS2FT

/-- The named trainable units of the model registry (`build_model`; the keys
iterated by `for key in model` and `model.keys()` in `train_finetune.py`). -/
inductive MKey where
  | text_aligner
  | text_encoder
  | predictor
  | predictor_encoder
  | style_encoder
  | decoder
  | bert
  | bert_encoder
  | diffusion
  | msd
  | mpd
  | wd
  | pitch_extractor
deriving DecidableEq, Repr

/-- One trainable parameter tensor: its gradient (a list of real entries, or
none when no gradient was produced) and its `requires_grad` flag. -/
structure Param where
  grad : Option (List ℝ)
  requiresGrad : Bool

/-- Per-unit gradient state of the whole model.  The predictor's parameters
are split into its duration-projection head (`predictor.duration_proj`), its
recurrent duration encoder (`predictor.lstm`) and the rest, because the SLM
stage amplification (train_finetune.py lines 519-525) targets exactly those
two subsets. -/
structure GradModel where
  text_aligner : List Param
  text_encoder : List Param
  predictor_duration_proj : List Param
  predictor_lstm : List Param
  predictor_other : List Param
  predictor_encoder : List Param
  style_encoder : List Param
  decoder : List Param
  bert : List Param
  bert_encoder : List Param
  diffusion : List Param
  msd : List Param
  mpd : List Param
  wd : List Param
  pitch_extractor : List Param

/-- `model[key].parameters()`: the parameter list of a named unit. -/
def GradModel.params (m : GradModel) : MKey → List Param
  | .text_aligner => m.text_aligner
  | .text_encoder => m.text_encoder
  | .predictor => m.predictor_duration_proj ++ m.predictor_lstm ++ m.predictor_other
  | .predictor_encoder => m.predictor_encoder
  | .style_encoder => m.style_encoder
  | .decoder => m.decoder
  | .bert => m.bert
  | .bert_encoder => m.bert_encoder
  | .diffusion => m.diffusion
  | .msd => m.msd
  | .mpd => m.mpd
  | .wd => m.wd
  | .pitch_extractor => m.pitch_extractor

/-- Sum of squared entries of a gradient tensor; `p.grad.detach().data.norm(2)
** 2` summed entrywise. -/
def sqSum (l : List ℝ) : ℝ := (l.map (fun g => g ^ 2)).sum

/-- Contribution of one parameter to a unit's squared gradient norm
(train_finetune.py lines 500-509): parameters are counted only when
`p.grad is not None and p.requires_grad`. -/
def paramNormSqTerm (p : Param) : ℝ :=
  if p.grad.isSome ∧ p.requiresGrad then sqSum (p.grad.getD []) else 0

/-- `total_norm[key]` before the final square root: the sum over the unit's
parameters of the squared parameter-gradient norms. -/
def unitNormSq (ps : List Param) : ℝ := (ps.map paramNormSqTerm).sum

/-- `total_norm[key] = (...) ** 0.5` (train_finetune.py line 510): the L2 norm
of a unit's gradients. -/
noncomputable def unitNorm (ps : List Param) : ℝ := Real.sqrt (unitNormSq ps)

/-- `total_norm["predictor"]`, the reference norm for the global rescale. -/
noncomputable def predictorNorm (m : GradModel) : ℝ := unitNorm (m.params .predictor)

/-- `p.grad *= c`: multiply every entry of the gradient by `c`, leaving the
parameter untouched when it has no gradient. -/
def scaleGrad (c : ℝ) (p : Param) : Param :=
  { p with grad := p.grad.map (List.map (fun g => c * g)) }

/-- The body of the global rescale loop (train_finetune.py lines 514-517):
every parameter of every unit with a gradient is multiplied by `c`. -/
def rescaleAll (c : ℝ) (m : GradModel) : GradModel where
  text_aligner := m.text_aligner.map (scaleGrad c)
  text_encoder := m.text_encoder.map (scaleGrad c)
  predictor_duration_proj := m.predictor_duration_proj.map (scaleGrad c)
  predictor_lstm := m.predictor_lstm.map (scaleGrad c)
  predictor_other := m.predictor_other.map (scaleGrad c)
  predictor_encoder := m.predictor_encoder.map (scaleGrad c)
  style_encoder := m.style_encoder.map (scaleGrad c)
  decoder := m.decoder.map (scaleGrad c)
  bert := m.bert.map (scaleGrad c)
  bert_encoder := m.bert_encoder.map (scaleGrad c)
  diffusion := m.diffusion.map (scaleGrad c)
  msd := m.msd.map (scaleGrad c)
  mpd := m.mpd.map (scaleGrad c)
  wd := m.wd.map (scaleGrad c)
  pitch_extractor := m.pitch_extractor.map (scaleGrad c)

/-- The gradient-norm scaling step (train_finetune.py lines 512-517):
`if total_norm["predictor"] > slmadv_params.thresh: p.grad *= 1 /
total_norm["predictor"]` for every parameter of every unit. -/
noncomputable def gradScaling (thresh : ℝ) (m : GradModel) : GradModel :=
  if thresh < predictorNorm m then rescaleAll (1 / predictorNorm m) m else m

/-- The targeted amplification (train_finetune.py lines 519-529): gradients of
`model.predictor.duration_proj`, `model.predictor.lstm` and all of
`model.diffusion` are multiplied by `slmadv_params.scale`. -/
def amplify (scale : ℝ) (m : GradModel) : GradModel :=
  { m with
      predictor_duration_proj := m.predictor_duration_proj.map (scaleGrad scale)
      predictor_lstm := m.predictor_lstm.map (scaleGrad scale)
      diffusion := m.diffusion.map (scaleGrad scale) }

/-- The full SLM-stage gradient surgery: global rescale first
(lines 512-517), then targeted amplification (lines 519-529). -/
noncomputable def slmGradSurgery (thresh scale : ℝ) (m : GradModel) : GradModel :=
  amplify scale (gradScaling thresh m)

/-- The factor the global rescale applies to every gradient: `1 /
total_norm["predictor"]` when the predictor norm exceeds the threshold, and
`1` (no change) otherwise. -/
noncomputable def rescaleFactor (thresh : ℝ) (m : GradModel) : ℝ :=
  if thresh < predictorNorm m then 1 / predictorNorm m else 1

lemma sqSum_map_mul (c : ℝ) (l : List ℝ) :
    sqSum (l.map (fun g => c * g)) = c ^ 2 * sqSum l := by
  induction l with
  | nil => simp [sqSum]
  | cons a t ih =>
      simp only [sqSum, List.map_cons, List.sum_cons] at ih ⊢
      rw [ih]
      ring

lemma paramNormSqTerm_scaleGrad (c : ℝ) (p : Param) :
    paramNormSqTerm (scaleGrad c p) = c ^ 2 * paramNormSqTerm p := by
  cases hg : p.grad with
  | none => simp [paramNormSqTerm, scaleGrad, hg]
  | some l =>
      by_cases hr : p.requiresGrad <;>
        simp [paramNormSqTerm, scaleGrad, hg, hr, sqSum_map_mul]

lemma unitNormSq_map_scaleGrad (c : ℝ) (ps : List Param) :
    unitNormSq (ps.map (scaleGrad c)) = c ^ 2 * unitNormSq ps := by
  simp only [unitNormSq, List.map_map, Function.comp_def, paramNormSqTerm_scaleGrad]
  exact List.sum_map_mul_left ps paramNormSqTerm (c ^ 2)

lemma unitNorm_map_scaleGrad {c : ℝ} (hc : 0 ≤ c) (ps : List Param) :
    unitNorm (ps.map (scaleGrad c)) = c * unitNorm ps := by
  rw [unitNorm, unitNorm, unitNormSq_map_scaleGrad,
    Real.sqrt_mul (sq_nonneg c), Real.sqrt_sq hc]

lemma params_rescaleAll (c : ℝ) (m : GradModel) (k : MKey) :
    (rescaleAll c m).params k = (m.params k).map (scaleGrad c) := by
  cases k <;> simp [rescaleAll, GradModel.params, List.map_append]

lemma scaleGrad_one (p : Param) : scaleGrad 1 p = p := by
  cases p with
  | mk g r => cases g <;> simp [scaleGrad]

lemma map_scaleGrad_one (l : List Param) : l.map (scaleGrad 1) = l := by
  induction l with
  | nil => rfl
  | cons a t ih => simp [scaleGrad_one, ih]

lemma rescaleAll_one (m : GradModel) : rescaleAll 1 m = m := by
  cases m
  simp [rescaleAll, map_scaleGrad_one]

lemma gradScaling_eq_rescaleAll (thresh : ℝ) (m : GradModel) :
    gradScaling thresh m = rescaleAll (rescaleFactor thresh m) m := by
  unfold gradScaling rescaleFactor
  by_cases h : thresh < predictorNorm m
  · rw [if_pos h, if_pos h]
  · rw [if_neg h, if_neg h, rescaleAll_one]

lemma scaleGrad_scaleGrad (a b : ℝ) (p : Param) :
    scaleGrad a (scaleGrad b p) = scaleGrad (a * b) p := by
  cases hg : p.grad <;>
    simp [scaleGrad, hg, List.map_map, Function.comp_def, mul_assoc]

/-- A parameter carrying a single-entry gradient. -/
def pOne (g : ℝ) : Param := ⟨some [g], true⟩

/-- A concrete gradient state: the predictor holds one parameter with
gradient entry 4 (L2 norm 4), the decoder one parameter with gradient entry 2
(L2 norm 2); every other unit is empty. -/
def exM : GradModel where
  text_aligner := []
  text_encoder := []
  predictor_duration_proj := []
  predictor_lstm := []
  predictor_other := [pOne 4]
  predictor_encoder := []
  style_encoder := []
  decoder := [pOne 2]
  bert := []
  bert_encoder := []
  diffusion := []
  msd := []
  mpd := []
  wd := []
  pitch_extractor := []

lemma exM_predictorNorm : predictorNorm exM = 4 := by
  have h : unitNormSq (exM.params .predictor) = 16 := by
    simp [exM, GradModel.params, unitNormSq, paramNormSqTerm, pOne, sqSum]
    norm_num
  rw [predictorNorm, unitNorm, h, show (16 : ℝ) = 4 ^ 2 by norm_num,
    Real.sqrt_sq (by norm_num)]

lemma exM_decoderNorm : unitNorm (exM.params .decoder) = 2 := by
  have h : unitNormSq (exM.params .decoder) = 4 := by
    simp [exM, GradModel.params, unitNormSq, paramNormSqTerm, pOne, sqSum]
    norm_num
  rw [unitNorm, h, show (4 : ℝ) = 2 ^ 2 by norm_num, Real.sqrt_sq (by norm_num)]

/-- C1 (counterexample): the claim as stated is false on the code.  With
threshold 2 and a parameter set whose predictor gradient norm is exactly
2 times the threshold (namely 4), the rescale triggers, yet the decoder
unit's gradient norm afterwards is not half its previous value: the code
multiplies gradients by `1 / total_norm["predictor"]`
(train_finetune.py line 517), not by `thresh / total_norm["predictor"]`, so
the decoder norm becomes 1/2 rather than 1. -/
theorem slm_rescale_claim_cex :
    (2 : ℝ) < predictorNorm exM ∧ predictorNorm exM = 2 * 2 ∧
      unitNorm ((gradScaling 2 exM).params .decoder)
        ≠ unitNorm (exM.params .decoder) / 2 := by
  have hn := exM_predictorNorm
  have htrig : (2 : ℝ) < predictorNorm exM := by rw [hn]; norm_num
  have h1 : gradScaling 2 exM = rescaleAll (1 / predictorNorm exM) exM :=
    if_pos htrig
  have hafter : unitNorm ((gradScaling 2 exM).params .decoder) = 1 / 2 := by
    rw [h1, params_rescaleAll,
      unitNorm_map_scaleGrad (by rw [hn]; norm_num), exM_decoderNorm, hn]
    norm_num
  refine ⟨htrig, by rw [hn]; norm_num, ?_⟩
  rw [hafter, exM_decoderNorm]
  norm_num

/-- C1 (amended): in the SLM stage, after the generator-loss backward, if the
predictor unit's gradient L2 norm exceeds the configured threshold, the
gradients of every unit are rescaled by the factor `1 / predictor_norm`
(train_finetune.py lines 512-517) — not `threshold / predictor_norm`.  In
particular, for any parameter set whose predictor gradient norm is exactly
2 times a positive threshold, every unit's gradient norm after rescaling is
its previous value divided by `2 * threshold` (so it is halved exactly when
the threshold is 1). -/
theorem slm_rescale_amended (thresh : ℝ) (m : GradModel) (ht : 0 < thresh)
    (hn : predictorNorm m = 2 * thresh) :
    gradScaling thresh m = rescaleAll (1 / predictorNorm m) m ∧
      ∀ k : MKey, unitNorm ((gradScaling thresh m).params k)
        = unitNorm (m.params k) / (2 * thresh) := by
  have htrig : thresh < predictorNorm m := by rw [hn]; linarith
  have h1 : gradScaling thresh m = rescaleAll (1 / predictorNorm m) m :=
    if_pos htrig
  refine ⟨h1, fun k => ?_⟩
  have hc : (0 : ℝ) ≤ 1 / predictorNorm m :=
    one_div_nonneg.mpr (Real.sqrt_nonneg _)
  rw [h1, params_rescaleAll, unitNorm_map_scaleGrad hc, hn, one_div,
    inv_mul_eq_div]

/-- Witness for `slm_rescale_amended`: the hypotheses hold at threshold 2 and
the concrete gradient state `exM`, and the conclusion follows there. -/
theorem slm_rescale_amended_witness :
    (0 : ℝ) < 2 ∧ predictorNorm exM = 2 * 2 ∧
      (gradScaling 2 exM = rescaleAll (1 / predictorNorm exM) exM ∧
        ∀ k : MKey, unitNorm ((gradScaling 2 exM).params k)
          = unitNorm (exM.params k) / (2 * 2)) :=
  ⟨by norm_num, by rw [exM_predictorNorm]; norm_num,
    slm_rescale_amended 2 exM (by norm_num)
      (by rw [exM_predictorNorm]; norm_num)⟩

/-- C3: in the SLM stage, after the global gradient-norm rescale (and only
after it), exactly three parameter subsets — the predictor's
duration-projection head, the predictor's recurrent duration encoder (lstm),
and all parameters of the diffusion unit — are additionally multiplied by the
configured `scale` factor, so on those subsets the two operations compose
multiplicatively (`scale * rescaleFactor`), while every other unit receives
only the global rescale factor. -/
theorem slm_surgery_composition (thresh scale : ℝ) (m : GradModel) :
    (slmGradSurgery thresh scale m).predictor_duration_proj
        = m.predictor_duration_proj.map (scaleGrad (scale * rescaleFactor thresh m)) ∧
    (slmGradSurgery thresh scale m).predictor_lstm
        = m.predictor_lstm.map (scaleGrad (scale * rescaleFactor thresh m)) ∧
    (slmGradSurgery thresh scale m).diffusion
        = m.diffusion.map (scaleGrad (scale * rescaleFactor thresh m)) ∧
    (slmGradSurgery thresh scale m).text_aligner
        = m.text_aligner.map (scaleGrad (rescaleFactor thresh m)) ∧
    (slmGradSurgery thresh scale m).text_encoder
        = m.text_encoder.map (scaleGrad (rescaleFactor thresh m)) ∧
    (slmGradSurgery thresh scale m).predictor_other
        = m.predictor_other.map (scaleGrad (rescaleFactor thresh m)) ∧
    (slmGradSurgery thresh scale m).predictor_encoder
        = m.predictor_encoder.map (scaleGrad (rescaleFactor thresh m)) ∧
    (slmGradSurgery thresh scale m).style_encoder
        = m.style_encoder.map (scaleGrad (rescaleFactor thresh m)) ∧
    (slmGradSurgery thresh scale m).decoder
        = m.decoder.map (scaleGrad (rescaleFactor thresh m)) ∧
    (slmGradSurgery thresh scale m).bert
        = m.bert.map (scaleGrad (rescaleFactor thresh m)) ∧
    (slmGradSurgery thresh scale m).bert_encoder
        = m.bert_encoder.map (scaleGrad (rescaleFactor thresh m)) ∧
    (slmGradSurgery thresh scale m).msd
        = m.msd.map (scaleGrad (rescaleFactor thresh m)) ∧
    (slmGradSurgery thresh scale m).mpd
        = m.mpd.map (scaleGrad (rescaleFactor thresh m)) ∧
    (slmGradSurgery thresh scale m).wd
        = m.wd.map (scaleGrad (rescaleFactor thresh m)) ∧
    (slmGradSurgery thresh scale m).pitch_extractor
        = m.pitch_extractor.map (scaleGrad (rescaleFactor thresh m)) := by
  unfold slmGradSurgery
  rw [gradScaling_eq_rescaleAll]
  refine ⟨?_, ?_, ?_, ?_, ?_, ?_, ?_, ?_, ?_, ?_, ?_, ?_, ?_, ?_, ?_⟩ <;>
    simp [amplify, rescaleAll, List.map_map, Function.comp_def,
      scaleGrad_scaleGrad]

/-- The loss weights of `loss_params` combined into `g_loss`
(train_finetune.py lines 436-448). -/
structure LossWeights where
  lambda_mel : ℝ
  lambda_F0 : ℝ
  lambda_ce : ℝ
  lambda_norm : ℝ
  lambda_dur : ℝ
  lambda_gen : ℝ
  lambda_slm : ℝ
  lambda_sty : ℝ
  lambda_diff : ℝ
  lambda_mono : ℝ
  lambda_s2s : ℝ

/-- Whatever the denoiser branch would compute when it runs: the EDM loss
`model.diffusion(...)` and the style reconstruction loss
`F.l1_loss(s_preds, s_trg)`, both depending on random draws (the sampled
`num_steps` and the noise).  Abstracted as arbitrary reals so that the gating
theorem quantifies over every possible random outcome. -/
structure DenoiserOutcome where
  lossDiff : ℝ
  lossSty : ℝ

/-- The curriculum gate on the denoiser losses (train_finetune.py lines
286-326): `if epoch >= diff_epoch` run the sampler and diffusion loss,
`else: loss_sty = 0; loss_diff = 0`.  Returns `(loss_sty, loss_diff)`. -/
def diffStyleLosses (epoch diffEpoch : ℕ) (den : DenoiserOutcome) : ℝ × ℝ :=
  if diffEpoch ≤ epoch then (den.lossSty, den.lossDiff) else (0, 0)

/-- The aggregated generator loss `g_loss` (train_finetune.py lines 436-448),
with the eleven weighted terms in source order. -/
def gLoss (w : LossWeights)
    (mel F0rec ce nrm dur gen lm sty diff mono s2s : ℝ) : ℝ :=
  w.lambda_mel * mel + w.lambda_F0 * F0rec + w.lambda_ce * ce
    + w.lambda_norm * nrm + w.lambda_dur * dur + w.lambda_gen * gen
    + w.lambda_slm * lm + w.lambda_sty * sty + w.lambda_diff * diff
    + w.lambda_mono * mono + w.lambda_s2s * s2s

/-- C4: for every training step of an epoch strictly below `diff_epoch`, the
denoising loss and the style-reconstruction loss are both exactly zero
regardless of the random denoiser outcome, and their weighted contributions
to `g_loss` are inert: the aggregate equals the sum of the other nine
weighted terms, with the `lambda_sty` and `lambda_diff` terms included as
zeros rather than skipped. -/
theorem diff_style_losses_inert_below_diff_epoch
    (epoch diffEpoch : ℕ) (h : epoch < diffEpoch) (den : DenoiserOutcome)
    (w : LossWeights) (mel F0rec ce nrm dur gen lm mono s2s : ℝ) :
    diffStyleLosses epoch diffEpoch den = (0, 0) ∧
      gLoss w mel F0rec ce nrm dur gen lm
          (diffStyleLosses epoch diffEpoch den).1
          (diffStyleLosses epoch diffEpoch den).2 mono s2s
        = w.lambda_mel * mel + w.lambda_F0 * F0rec + w.lambda_ce * ce
            + w.lambda_norm * nrm + w.lambda_dur * dur + w.lambda_gen * gen
            + w.lambda_slm * lm + w.lambda_mono * mono
            + w.lambda_s2s * s2s := by
  have hz : diffStyleLosses epoch diffEpoch den = (0, 0) := by
    unfold diffStyleLosses
    rw [if_neg (by omega)]
  refine ⟨hz, ?_⟩
  rw [hz]
  unfold gLoss
  ring

/-- Witness for `diff_style_losses_inert_below_diff_epoch`: epoch 0 with
`diff_epoch = 3` and a nonzero putative denoiser outcome. -/
theorem diff_style_losses_inert_witness :
    0 < 3 ∧
      (diffStyleLosses 0 3 ⟨5, 7⟩ = (0, 0) ∧
        gLoss ⟨1, 1, 1, 1, 1, 1, 1, 1, 1, 1, 1⟩ 1 1 1 1 1 1 1
            (diffStyleLosses 0 3 ⟨5, 7⟩).1 (diffStyleLosses 0 3 ⟨5, 7⟩).2 1 1
          = 1 * 1 + 1 * 1 + 1 * 1 + 1 * 1 + 1 * 1 + 1 * 1 + 1 * 1 + 1 * 1
            + 1 * 1) :=
  ⟨by decide,
    diff_style_losses_inert_below_diff_epoch 0 3 (by decide) ⟨5, 7⟩
      ⟨1, 1, 1, 1, 1, 1, 1, 1, 1, 1, 1⟩ 1 1 1 1 1 1 1 1 1⟩

/-- `int(mel_input_length.min().item() / 2 - 1)` (train_finetune.py lines
332-333).  Python `int` truncates toward zero and `x / 2 - 1 = (x - 2) / 2`
exactly, so this is the truncating division `(minLen - 2).tdiv 2`. -/
def melLenSt (minLen : ℤ) : ℤ := (minLen - 2).tdiv 2

/-- `mel_len = min(int(mel_input_length.min().item() / 2 - 1), max_len // 2)`
(train_finetune.py line 333): the reconstruction crop length. -/
def melLenCrop (minLen : ℤ) (maxLen : ℕ) : ℤ :=
  min (melLenSt minLen) ((maxLen / 2 : ℕ) : ℤ)

/-- `int(mel_input_length[bib].item() / 2)` (train_finetune.py line 341):
an utterance's half valid mel length, truncated. -/
def melHalfLen (len : ℤ) : ℤ := len.tdiv 2

/-- `gt.size(-1)`: the width of each cropped ground-truth mel segment, which
is `2 * mel_len` (train_finetune.py lines 346-348). -/
def gtSegWidth (minLen : ℤ) (maxLen : ℕ) : ℤ := 2 * melLenCrop minLen maxLen

/-- `mel_input_length.min().item()` for a nonempty batch given as a head
length and the remaining lengths. -/
def melMin (len0 : ℤ) (lens : List ℤ) : ℤ := lens.foldl min len0

/-- The observable side effects of one training-loop batch iteration of
`main` (train_finetune.py lines 220-542), in program order. -/
inductive Effect where
  | zeroGrad
  | discBackward
  | genBackward
  | slmGenBackward
  | slmDiscBackward
  | gradRescale
  | gradAmplify
  | optStep (k : MKey)
  | itersInc
deriving DecidableEq, Repr

/-- The data-dependent branch outcomes of one batch iteration. -/
structure BatchFlags where
  alignerOk : Bool
  slmReturned : Bool
  dLossSlmNonzero : Bool
  rescaleTriggered : Bool

/-- The ordered effect trace of one batch iteration of the training loop
(train_finetune.py lines 242-542): the aligner `try` guard (line 247
`continue`), the short-segment guard (lines 368-369 `continue`), the
discriminator step (lines 392-396), the generator step (lines 399-461), the
conditional diffusion step (lines 463-464), the conditional SLM stage (lines
467-540), and the iteration-counter increment (line 542). -/
def batchTrace (epoch diffEpoch jointEpoch : ℕ) (minLen : ℤ) (maxLen : ℕ)
    (f : BatchFlags) : List Effect :=
  if f.alignerOk = false then []
  else if gtSegWidth minLen maxLen < 80 then []
  else
    [Effect.zeroGrad, Effect.discBackward,
      Effect.optStep .msd, Effect.optStep .mpd,
      Effect.zeroGrad, Effect.genBackward,
      Effect.optStep .bert_encoder, Effect.optStep .bert,
      Effect.optStep .predictor, Effect.optStep .predictor_encoder,
      Effect.optStep .style_encoder, Effect.optStep .decoder,
      Effect.optStep .text_encoder, Effect.optStep .text_aligner]
    ++ (if diffEpoch ≤ epoch then [Effect.optStep .diffusion] else [])
    ++ (if jointEpoch ≤ epoch then
          (if f.slmReturned then
            [Effect.zeroGrad, Effect.slmGenBackward]
            ++ (if f.rescaleTriggered then [Effect.gradRescale] else [])
            ++ [Effect.gradAmplify,
                Effect.optStep .bert_encoder, Effect.optStep .bert,
                Effect.optStep .predictor, Effect.optStep .diffusion]
            ++ (if f.dLossSlmNonzero then
                  [Effect.zeroGrad, Effect.slmDiscBackward,
                    Effect.optStep .wd]
                else [])
          else [])
        else [])
    ++ [Effect.itersInc]

/-- The iteration counter after one batch: `iters` plus the number of
`iters = iters + 1` effects in the trace (train_finetune.py line 542). -/
def itersAfterBatch (iters : ℕ) (tr : List Effect) : ℕ :=
  iters + tr.count Effect.itersInc

/-- C5: for every training step in an epoch that is at least `diff_epoch` but
strictly below `joint_epoch`, the adversarial SLM stage is never invoked: the
batch trace contains no SLM generator or discriminator backward, no
gradient-norm rescale, no targeted amplification, and no step of the
waveform-critic (`wd`) optimizer. -/
theorem no_slm_stage_between_diff_and_joint (epoch diffEpoch jointEpoch : ℕ)
    (minLen : ℤ) (maxLen : ℕ) (f : BatchFlags)
    (h1 : diffEpoch ≤ epoch) (h2 : epoch < jointEpoch) :
    Effect.slmGenBackward ∉ batchTrace epoch diffEpoch jointEpoch minLen maxLen f ∧
    Effect.slmDiscBackward ∉ batchTrace epoch diffEpoch jointEpoch minLen maxLen f ∧
    Effect.gradRescale ∉ batchTrace epoch diffEpoch jointEpoch minLen maxLen f ∧
    Effect.gradAmplify ∉ batchTrace epoch diffEpoch jointEpoch minLen maxLen f ∧
    Effect.optStep .wd ∉ batchTrace epoch diffEpoch jointEpoch minLen maxLen f := by
  have hj : ¬jointEpoch ≤ epoch := by omega
  unfold batchTrace
  refine ⟨?_, ?_, ?_, ?_, ?_⟩ <;>
  · by_cases ha : f.alignerOk = false
    · simp [ha]
    · by_cases hw : gtSegWidth minLen maxLen < 80
      · simp [ha, hw]
      · simp [ha, hw, hj, h1]

/-- Witness for `no_slm_stage_between_diff_and_joint`: epoch 3 with
`diff_epoch = 2` and `joint_epoch = 5`, a long enough batch, and every
data-dependent branch taken. -/
theorem no_slm_stage_between_diff_and_joint_witness :
    2 ≤ 3 ∧ 3 < 5 ∧
      (Effect.slmGenBackward ∉ batchTrace 3 2 5 300 200 ⟨true, true, true, true⟩ ∧
       Effect.slmDiscBackward ∉ batchTrace 3 2 5 300 200 ⟨true, true, true, true⟩ ∧
       Effect.gradRescale ∉ batchTrace 3 2 5 300 200 ⟨true, true, true, true⟩ ∧
       Effect.gradAmplify ∉ batchTrace 3 2 5 300 200 ⟨true, true, true, true⟩ ∧
       Effect.optStep .wd ∉ batchTrace 3 2 5 300 200 ⟨true, true, true, true⟩) :=
  ⟨by decide, by decide,
    no_slm_stage_between_diff_and_joint 3 2 5 300 200
      ⟨true, true, true, true⟩ (by decide) (by decide)⟩

/-- C6: a batch whose cropped ground-truth segment width falls below the
fixed floor of 80 is skipped atomically (train_finetune.py lines 368-369):
the trace contains no optimizer step of any unit and the iteration counter is
unchanged. -/
theorem short_segment_skip_atomic (epoch diffEpoch jointEpoch : ℕ)
    (minLen : ℤ) (maxLen : ℕ) (f : BatchFlags) (iters : ℕ)
    (h : gtSegWidth minLen maxLen < 80) :
    (∀ k : MKey,
        Effect.optStep k ∉ batchTrace epoch diffEpoch jointEpoch minLen maxLen f) ∧
      itersAfterBatch iters (batchTrace epoch diffEpoch jointEpoch minLen maxLen f)
        = iters := by
  have htr : batchTrace epoch diffEpoch jointEpoch minLen maxLen f = [] := by
    unfold batchTrace
    by_cases ha : f.alignerOk = false
    · simp [ha]
    · simp [ha, h]
  rw [htr]
  exact ⟨fun k => by simp, by simp [itersAfterBatch]⟩

/-- Witness for `short_segment_skip_atomic`: a batch with minimum mel length
80 and `max_len = 200` has cropped segment width `2 * (80 / 2 - 1) = 78 < 80`
and is skipped with the iteration counter staying at 7. -/
theorem short_segment_skip_atomic_witness :
    gtSegWidth 80 200 < 80 ∧
      ((∀ k : MKey,
          Effect.optStep k ∉ batchTrace 9 1 2 80 200 ⟨true, true, true, true⟩) ∧
        itersAfterBatch 7 (batchTrace 9 1 2 80 200 ⟨true, true, true, true⟩) = 7) :=
  ⟨by decide,
    short_segment_skip_atomic 9 1 2 80 200 ⟨true, true, true, true⟩ 7 (by decide)⟩

/-- The checkpoint dictionary written at save points (train_finetune.py lines
738-744): model state dicts, optimizer state, the iteration counter, the
validation loss, and the epoch.  The serialized model/optimizer states are
abstracted as opaque byte lists. -/
structure Checkpoint where
  net : List ℕ
  optState : List ℕ
  iters : ℕ
  valLoss : ℝ
  epoch : ℕ

/-- `torch.save(state, save_path)` with the dictionary of train_finetune.py
lines 738-744. -/
def saveCheckpoint (net optState : List ℕ) (iters : ℕ) (valLoss : ℝ)
    (epoch : ℕ) : Checkpoint :=
  ⟨net, optState, iters, valLoss, epoch⟩

/-- Modelled from the spec: `load_checkpoint` is defined in `models.py`,
which is not part of this tree.  Per §6, loading returns
`(unit_states, optimizer_state, start_epoch, start_iteration)` from the
stored checkpoint, and params-only mode restores the weights but not the
optimizer state. -/
def load_checkpoint (_curNet curOpt : List ℕ) (ck : Checkpoint)
    (loadOnlyParams : Bool) : List ℕ × List ℕ × ℕ × ℕ :=
  (ck.net, if loadOnlyParams then curOpt else ck.optState, ck.epoch, ck.iters)

/-- The variables of `main` after the pretrained-resume preamble. -/
structure ResumedRun where
  net : List ℕ
  optState : List ℕ
  startEpoch : ℕ
  iters : ℕ

/-- The pretrained-resume path of `main` (train_finetune.py lines 171-182):
`model, optimizer, start_epoch, iters = load_checkpoint(...)`, followed
before the training loop by `best_loss = float("inf")` and `iters = 0`
(line 182), which overwrites the iteration counter just restored. -/
def resumeFromPretrained (curNet curOpt : List ℕ) (ck : Checkpoint)
    (loadOnlyParams : Bool) : ResumedRun :=
  let r := load_checkpoint curNet curOpt ck loadOnlyParams
  { net := r.1, optState := r.2.1, startEpoch := r.2.2.1, iters := 0 }

/-- C2 (code bug): saving a checkpoint at iteration 5 / epoch 3 and restoring
it with params-only set to false restores the optimizer state and the start
epoch, but the run does not resume at the saved iteration counter: line 182
of train_finetune.py resets `iters` to 0 immediately after the load, so the
restored counter 5 is discarded. -/
theorem checkpoint_resume_iters_reset :
    (resumeFromPretrained [0] [1] (saveCheckpoint [2] [3, 4] 5 0 3) false).optState
        = [3, 4] ∧
    (resumeFromPretrained [0] [1] (saveCheckpoint [2] [3, 4] 5 0 3) false).startEpoch
        = 3 ∧
    (saveCheckpoint [2] [3, 4] 5 0 3).iters = 5 ∧
    (resumeFromPretrained [0] [1] (saveCheckpoint [2] [3, 4] 5 0 3) false).iters
        = 0 ∧
    (0 : ℕ) ≠ 5 :=
  ⟨rfl, rfl, rfl, rfl, by decide⟩

/-- Startup handling of the first-stage checkpoint (train_finetune.py lines
87-117), executed when no second-stage pretrained model is loaded: if a
first-stage path is configured, load it with `load_only_params=True`, keep
its `start_epoch`, and offset `diff_epoch`, `joint_epoch` and `epochs` by
that start epoch (lines 110-113); otherwise raise a `ValueError`.  Returns
`(diff_epoch, joint_epoch, epochs, start_epoch)`. -/
def firstStageStartup (firstStagePathSet : Bool)
    (diffEpoch jointEpoch epochs ckptStartEpoch : ℕ) :
    Except String (ℕ × ℕ × ℕ × ℕ) :=
  if firstStagePathSet then
    Except.ok (diffEpoch + ckptStartEpoch, jointEpoch + ckptStartEpoch,
      epochs + ckptStartEpoch, ckptStartEpoch)
  else
    Except.error "You need to specify the path to the first stage model."

/-- C7: when resuming from a first-stage checkpoint, the curriculum
thresholds are offset once at startup by the restored start epoch:
the effective `diff_epoch` is the configured one plus `start_epoch`, and
`joint_epoch` and the total epoch count are offset the same way. -/
theorem first_stage_resume_offsets (pathSet : Bool)
    (diffEpoch jointEpoch epochs startEpoch : ℕ) (h : pathSet = true) :
    firstStageStartup pathSet diffEpoch jointEpoch epochs startEpoch
      = Except.ok (diffEpoch + startEpoch, jointEpoch + startEpoch,
          epochs + startEpoch, startEpoch) := by
  subst h
  rfl

/-- Witness for `first_stage_resume_offsets`: with `diff_epoch = 10` and a
restored `start_epoch = 5`, the effective `diff_epoch` is 15 (and
`joint_epoch = 20` becomes 25, `epochs = 200` becomes 205). -/
theorem first_stage_resume_offsets_witness :
    firstStageStartup true 10 20 200 5 = Except.ok (15, 25, 205, 5) :=
  first_stage_resume_offsets true 10 20 200 5 rfl

/-- The epoch-end metric-writer emissions of the validation pass
(train_finetune.py lines 730-732), in program order: tag, scalar value, and
the x-axis index `epoch + 1`. -/
noncomputable def evalEpochScalars (lossTest lossAlign lossF : ℝ) (itersTest : ℕ)
    (epoch : ℕ) : List (String × ℝ × ℕ) :=
  [("eval/mel_loss", lossTest / (itersTest : ℝ), epoch + 1),
   ("eval/dur_loss", lossTest / (itersTest : ℝ), epoch + 1),
   ("eval/F0_loss", lossF / (itersTest : ℝ), epoch + 1)]

/-- C8: at the end of every epoch's validation pass, the metric writer emits
under `eval/dur_loss` the mean test mel loss `loss_test / iters_test` — the
same value emitted under `eval/mel_loss` — and the emitted records do not
depend on the accumulated duration loss `loss_align` at all. -/
theorem eval_dur_loss_logs_mel_value (lossTest lossAlign lossAlign2 lossF : ℝ)
    (itersTest epoch : ℕ) :
    (evalEpochScalars lossTest lossAlign lossF itersTest epoch)[1]?
        = some ("eval/dur_loss", lossTest / (itersTest : ℝ), epoch + 1) ∧
    (evalEpochScalars lossTest lossAlign lossF itersTest epoch)[0]?
        = some ("eval/mel_loss", lossTest / (itersTest : ℝ), epoch + 1) ∧
    evalEpochScalars lossTest lossAlign lossF itersTest epoch
        = evalEpochScalars lossTest lossAlign2 lossF itersTest epoch :=
  ⟨rfl, rfl, rfl⟩

/-- One optimizer param-group's hyperparameters, the fields touched by the
post-construction overrides (train_finetune.py lines 153-168). -/
structure ParamGroupHP where
  beta1 : ℝ
  beta2 : ℝ
  lr : ℝ
  initial_lr : ℝ
  min_lr : ℝ
  weight_decay : ℝ

/-- One unit's optimizer: its param-group hyperparameters plus an abstract
internal state (momentum buffers / scheduler position), counted as ticks. -/
structure UnitOptim where
  hp : ParamGroupHP
  ticks : ℕ

/-- Modelled from the spec: `build_optimizer` is defined in `optimizers.py`,
which is not part of this tree.  Per §4.2 it constructs one optimizer and one
schedule per unit from the shared schedule parameters; the initial param-group
hyperparameters it creates are abstracted as the given assignment `init`. -/
def buildOptimizerState (init : MKey → ParamGroupHP) : MKey → UnitOptim :=
  fun k => ⟨init k, 0⟩

/-- The BERT override values (train_finetune.py lines 153-159): betas
(0.9, 0.99), lr and initial lr `bert_lr`, min lr 0, weight decay 0.01. -/
def bertOverrideHP (bert_lr : ℝ) : ParamGroupHP :=
  ⟨0.9, 0.99, bert_lr, bert_lr, 0, 0.01⟩

/-- The acoustic-module override values (train_finetune.py lines 161-168):
betas (0.0, 0.99), lr and initial lr `ft_lr`, min lr 0, weight decay 1e-4. -/
def acousticOverrideHP (ft_lr : ℝ) : ParamGroupHP :=
  ⟨0, 0.99, ft_lr, ft_lr, 0, 1e-4⟩

/-- The post-construction hyperparameter overrides (train_finetune.py lines
153-168): every param group of the `bert` optimizer receives the BERT
override, and every param group of the `decoder` and `style_encoder`
optimizers receives the acoustic override; no other unit is touched. -/
def applyFinetuneOverrides (bert_lr ft_lr : ℝ) (s : MKey → UnitOptim) :
    MKey → UnitOptim :=
  fun k =>
    match k with
    | .bert => ⟨bertOverrideHP bert_lr, (s .bert).ticks⟩
    | .decoder => ⟨acousticOverrideHP ft_lr, (s .decoder).ticks⟩
    | .style_encoder => ⟨acousticOverrideHP ft_lr, (s .style_encoder).ticks⟩
    | k => s k

/-- The operations `main` issues on the multi-optimizer during training:
`optimizer.step(unit)` and `optimizer.zero_grad()`. -/
inductive OptimOp where
  | step (k : MKey)
  | zero_grad

/-- Modelled from the spec: `MultiOptimizer.step` / `zero_grad` are defined
in `optimizers.py`, which is not part of this tree.  Per §4.2, `step(unit)`
applies only that unit's optimizer and scheduler tick and never mutates
another unit's optimizer state, and the per-unit hyperparameter binding is
"applied once, not re-derived" (§4.2) and "a fixed invariant for the run"
(§3); `zero_grad` clears gradients and touches no optimizer state. -/
def applyOptimOp (s : MKey → UnitOptim) : OptimOp → (MKey → UnitOptim)
  | .step k => fun q => if q = k then ⟨(s q).hp, (s q).ticks + 1⟩ else s q
  | .zero_grad => s

/-- Run a sequence of optimizer operations, as the training loop does. -/
def runOptimOps (ops : List OptimOp) (s : MKey → UnitOptim) :
    MKey → UnitOptim :=
  ops.foldl applyOptimOp s

lemma hp_applyOptimOp (s : MKey → UnitOptim) (op : OptimOp) (k : MKey) :
    (applyOptimOp s op k).hp = (s k).hp := by
  cases op with
  | step q =>
      by_cases h : k = q <;> simp [applyOptimOp, h]
  | zero_grad => rfl

lemma hp_runOptimOps (ops : List OptimOp) :
    ∀ (s : MKey → UnitOptim) (k : MKey), (runOptimOps ops s k).hp = (s k).hp := by
  induction ops with
  | nil => intro s k; rfl
  | cons op t ih =>
      intro s k
      show (List.foldl applyOptimOp (applyOptimOp s op) t k).hp = (s k).hp
      rw [show List.foldl applyOptimOp (applyOptimOp s op) t
            = runOptimOps t (applyOptimOp s op) from rfl,
        ih (applyOptimOp s op) k, hp_applyOptimOp]

/-- C9: after optimizer construction and before the training loop, the bert
unit and the two acoustic units (decoder, style_encoder) have their
hyperparameters overridden — bert to betas (0.9, 0.99), lr `bert_lr`, min lr
0 and weight decay 0.01; decoder and style_encoder to betas (0.0, 0.99), lr
`ft_lr`, min lr 0 and weight decay 1e-4 — and whatever sequence of
`step`/`zero_grad` operations the run performs afterwards, those
hyperparameters are never changed, while every other unit keeps its
constructed hyperparameters. -/
theorem optimizer_override_invariant (init : MKey → ParamGroupHP)
    (bert_lr ft_lr : ℝ) (ops : List OptimOp) :
    (runOptimOps ops
        (applyFinetuneOverrides bert_lr ft_lr (buildOptimizerState init)) .bert).hp
        = bertOverrideHP bert_lr ∧
    (runOptimOps ops
        (applyFinetuneOverrides bert_lr ft_lr (buildOptimizerState init)) .decoder).hp
        = acousticOverrideHP ft_lr ∧
    (runOptimOps ops
        (applyFinetuneOverrides bert_lr ft_lr (buildOptimizerState init)) .style_encoder).hp
        = acousticOverrideHP ft_lr ∧
    ∀ k : MKey, k ≠ .bert → k ≠ .decoder → k ≠ .style_encoder →
      (runOptimOps ops
          (applyFinetuneOverrides bert_lr ft_lr (buildOptimizerState init)) k).hp
        = init k := by
  refine ⟨?_, ?_, ?_, ?_⟩
  · rw [hp_runOptimOps]; rfl
  · rw [hp_runOptimOps]; rfl
  · rw [hp_runOptimOps]; rfl
  · intro k h1 h2 h3
    rw [hp_runOptimOps]
    cases k <;>
      first
        | rfl
        | exact absurd rfl h1
        | exact absurd rfl h2
        | exact absurd rfl h3

/-- Witness for `optimizer_override_invariant`: a concrete constructed state,
`bert_lr = 2`, `ft_lr = 3`, a concrete operation sequence, and the untouched
unit `msd`. -/
theorem optimizer_override_invariant_witness :
    (runOptimOps [OptimOp.step .bert, OptimOp.zero_grad, OptimOp.step .msd]
        (applyFinetuneOverrides 2 3
          (buildOptimizerState (fun _ => ⟨1, 1, 1, 1, 1, 1⟩))) .bert).hp
        = bertOverrideHP 2 ∧
    (runOptimOps [OptimOp.step .bert, OptimOp.zero_grad, OptimOp.step .msd]
        (applyFinetuneOverrides 2 3
          (buildOptimizerState (fun _ => ⟨1, 1, 1, 1, 1, 1⟩))) .msd).hp
        = ⟨1, 1, 1, 1, 1, 1⟩ := by
  obtain ⟨h1, _, _, h4⟩ :=
    optimizer_override_invariant (fun _ => ⟨1, 1, 1, 1, 1, 1⟩) 2 3
      [OptimOp.step .bert, OptimOp.zero_grad, OptimOp.step .msd]
  exact ⟨h1, h4 .msd (by decide) (by decide) (by decide)⟩

lemma foldl_min_le_init (lens : List ℤ) : ∀ a : ℤ, lens.foldl min a ≤ a := by
  induction lens with
  | nil => intro a; exact le_refl a
  | cons b t ih =>
      intro a
      calc (b :: t).foldl min a = t.foldl min (min a b) := rfl
        _ ≤ min a b := ih (min a b)
        _ ≤ a := min_le_left a b

lemma foldl_min_le_mem (lens : List ℤ) :
    ∀ a L : ℤ, L ∈ lens → lens.foldl min a ≤ L := by
  induction lens with
  | nil => intro a L h; cases h
  | cons b t ih =>
      intro a L h
      rcases List.mem_cons.mp h with h1 | h1
      · subst h1
        calc (L :: t).foldl min a = t.foldl min (min a L) := rfl
          _ ≤ min a L := foldl_min_le_init t (min a L)
          _ ≤ L := min_le_right a L
      · exact ih (min a b) L h1

lemma melMin_le_mem (len0 : ℤ) (lens : List ℤ) :
    ∀ L ∈ len0 :: lens, melMin len0 lens ≤ L := by
  intro L hL
  rcases List.mem_cons.mp hL with h | h
  · subst h; exact foldl_min_le_init lens L
  · exact foldl_min_le_mem lens len0 L h

lemma melLenSt_lt_melHalfLen {m L : ℤ} (h2 : 2 ≤ m) (hm : m ≤ L) :
    melLenSt m < melHalfLen L := by
  unfold melLenSt melHalfLen
  rw [Int.tdiv_eq_ediv (by omega) (by norm_num),
    Int.tdiv_eq_ediv (by omega) (by norm_num)]
  omega

/-- C10: for every batch reaching the segment-sampling stage whose minimum
valid mel length is at least 2, both per-utterance random crop offset draws
are well defined: for every utterance length `L` in the batch, the crop
length (for the reconstruction crop: the batch minimum of `len / 2 - 1`
clamped by `max_len / 2`; for the style crop: the unclamped minimum) is
strictly smaller than that utterance's half valid length `L / 2`, so both
`np.random.randint(0, mel_length - mel_len)` ranges are nonempty and the
sampling never raises. -/
theorem segment_sampling_offsets_nonempty (len0 : ℤ) (lens : List ℤ)
    (maxLen : ℕ) (h2 : 2 ≤ melMin len0 lens) :
    ∀ L ∈ len0 :: lens,
      melLenCrop (melMin len0 lens) maxLen < melHalfLen L ∧
      melLenSt (melMin len0 lens) < melHalfLen L ∧
      1 ≤ melHalfLen L - melLenCrop (melMin len0 lens) maxLen ∧
      1 ≤ melHalfLen L - melLenSt (melMin len0 lens) := by
  intro L hL
  have hmL : melMin len0 lens ≤ L := melMin_le_mem len0 lens L hL
  have hst : melLenSt (melMin len0 lens) < melHalfLen L :=
    melLenSt_lt_melHalfLen h2 hmL
  have hcrop : melLenCrop (melMin len0 lens) maxLen ≤ melLenSt (melMin len0 lens) :=
    min_le_left _ _
  exact ⟨lt_of_le_of_lt hcrop hst, hst, by omega, by omega⟩

/-- Witness for `segment_sampling_offsets_nonempty`: a batch with mel lengths
4 and 5 and `max_len = 200`. -/
theorem segment_sampling_offsets_nonempty_witness :
    2 ≤ melMin 4 [5] ∧
      ∀ L ∈ (4 : ℤ) :: [5],
        melLenCrop (melMin 4 [5]) 200 < melHalfLen L ∧
        melLenSt (melMin 4 [5]) < melHalfLen L ∧
        1 ≤ melHalfLen L - melLenCrop (melMin 4 [5]) 200 ∧
        1 ≤ melHalfLen L - melLenSt (melMin 4 [5]) :=
  ⟨by decide, segment_sampling_offsets_nonempty 4 [5] 200 (by decide)⟩

end StyleTTS2FT
